import Mathlib

/-!
Formal model of the listing, linking and response-shaping engine of the
Network-application-with-fastapi repository (FastAPI + MongoDB social-network API).

The Python sources are embedded shallowly: every definition below mirrors one
function or data shape of the repository (the doc comment names the file and
symbol it embeds).  MongoDB is modelled as an in-memory store of document
lists; datetimes as a plain calendar record; exceptions as an explicit
`Except` error channel.
-/

namespace Spec2Proof

/-! ## Datetime model

Python `datetime.datetime` values, restricted to the fields the repository
reads (the date-formatting patterns use year, month, day, hour, minute). -/

structure DateTime where
  year : Nat
  month : Nat
  day : Nat
  hour : Nat
  minute : Nat
deriving DecidableEq, Repr

/-- A strictly monotone chronological key for comparing `DateTime`s
(month < 13, day < 32, hour < 24, minute < 60 on real datetimes). -/
def DateTime.key (d : DateTime) : Nat :=
  (((d.year * 13 + d.month) * 32 + d.day) * 24 + d.hour) * 60 + d.minute

/-- Two-digit zero padding, as produced by the `dd`/`MM`/`HH`/`mm` fields of
CLDR datetime patterns. -/
def pad2 (n : Nat) : String :=
  if n < 10 then "0" ++ Nat.repr n else Nat.repr n

/-- Python `str.lower` (character-wise lower-casing; the strings involved are
ASCII). -/
def pyLower (s : String) : String :=
  String.mk (s.data.map Char.toLower)

/-- Python `str.strip`: remove leading and trailing whitespace. -/
def pyStrip (s : String) : String :=
  String.mk (((s.data.dropWhile Char.isWhitespace).reverse.dropWhile
    Char.isWhitespace).reverse)

/-- Python `s.split(",")[0]`: the characters before the first comma. -/
def pyHeadSegment (s : String) : String :=
  String.mk (s.data.takeWhile (fun c => c != ','))

/-! ## Locale formatter (app/utils/i18n.py) -/

/-- Models `babel.dates.format_datetime(date, format="MM/dd/yyyy 'at' h:mm a",
locale=Locale("en","US"))`: zero-padded month/day, 12-hour clock hour without
padding, AM/PM day period. -/
def babelFormatEnUS (d : DateTime) : String :=
  let h12 := if d.hour % 12 == 0 then 12 else d.hour % 12
  pad2 d.month ++ "/" ++ pad2 d.day ++ "/" ++ Nat.repr d.year ++ " at " ++
    Nat.repr h12 ++ ":" ++ pad2 d.minute ++ " " ++
    (if d.hour < 12 then "AM" else "PM")

/-- Models `babel.dates.format_datetime(date, format="dd/MM/yyyy 'à' HH:mm",
locale=Locale("fr","FR"))`: zero-padded day/month and 24-hour clock. -/
def babelFormatFrFR (d : DateTime) : String :=
  pad2 d.day ++ "/" ++ pad2 d.month ++ "/" ++ Nat.repr d.year ++ " à " ++
    pad2 d.hour ++ ":" ++ pad2 d.minute

/-- app/utils/i18n.py, `I18n.format_date`: a missing date renders as `""`;
otherwise the language tag is lower-cased, truncated to two characters, and
looked up among the configured locales (`en`, `fr`), falling back to `en`. -/
def I18n.format_date (date : Option DateTime) (language : String) : String :=
  match date with
  | none => ""
  | some d =>
    let lang := (pyLower language).take 2
    let lang := if lang == "en" || lang == "fr" then lang else "en"
    if lang == "fr" then babelFormatFrFR d else babelFormatEnUS d

/-- app/utils/i18n.py, module-level `format_date`: re-checks for a missing
date, then delegates to `I18n.format_date`. -/
def format_date (date : Option DateTime) (language : String) : String :=
  match date with
  | none => ""
  | some d => I18n.format_date (some d) language

/-! ## Sort order enum (app/schemas/common.py) -/

/-- app/schemas/common.py, `SortOrder(str, Enum)` with members ASC = "asc" and
DESC = "desc". -/
inductive SortOrder where
  | asc
  | desc
deriving DecidableEq, Repr

/-- The `.value` attribute of a `SortOrder` member.  `SortOrder` mixes in
`str`, so a member's string payload is its value; this is also what an
f-string interpolation of the member renders (str-mixin enum formatting). -/
def SortOrder.value : SortOrder → String
  | .asc => "asc"
  | .desc => "desc"

/-! ## Pagination links (app/routers/users.py, posts.py, comments.py)

`add_pagination_links` is duplicated verbatim in the three routers; it is
embedded once. -/

/-- The dict returned by `add_pagination_links`: keys `self`, `first`, `last`
are always present, `prev` and `next` conditionally. -/
structure PaginationLinks where
  self : String
  first : String
  last : String
  prev : Option String
  next : Option String
deriving DecidableEq, Repr

/-- The query-string fragment
`"&".join(f"{k}={v}" for k, v in params.items() if v is not None)` prefixed
with `&` when non-empty, as built inside `add_pagination_links`.  `params`
lists the keyword arguments in declaration order with their rendered values
(`none` models a Python `None` value, which is dropped). -/
def paginationQueryString (params : List (String × Option String)) : String :=
  let query_params :=
    String.intercalate "&"
      (params.filterMap (fun kv => kv.2.map (fun v => kv.1 ++ "=" ++ v)))
  if query_params == "" then "" else "&" ++ query_params

/-- One page link `f"{base_url}{endpoint}?page={p}&limit={limit}{query_string}"`. -/
def page_href (base_url endpoint : String) (p limit : Nat)
    (params : List (String × Option String)) : String :=
  base_url ++ (endpoint ++ ("?page=" ++ (Nat.repr p ++ ("&limit=" ++
    (Nat.repr limit ++ paginationQueryString params)))))

/-- The last-page computation `total_pages = (total + limit - 1) // limit` of
`add_pagination_links`. -/
def total_pages (total limit : Nat) : Nat :=
  (total + limit - 1) / limit

/-- app/routers/users.py (and identically posts.py, comments.py),
`add_pagination_links`: emits `self`/`first`/`last` unconditionally, `prev`
only when `page > 1`, `next` only when `page < total_pages`. -/
def add_pagination_links (base_url endpoint : String) (page limit total : Nat)
    (params : List (String × Option String)) : PaginationLinks :=
  { self := page_href base_url endpoint page limit params
    first := page_href base_url endpoint 1 limit params
    last := page_href base_url endpoint (total_pages total limit) limit params
    prev := if page > 1 then some (page_href base_url endpoint (page - 1) limit params) else none
    next := if page < total_pages total limit then
              some (page_href base_url endpoint (page + 1) limit params)
            else none }

/-! ## Entity-id validation (bson ObjectId) -/

/-- A hexadecimal digit, upper- or lower-case. -/
def isHexChar (c : Char) : Bool :=
  c.isDigit || ('a' ≤ c && c ≤ 'f') || ('A' ≤ c && c ≤ 'F')

/-- Whether Python `bytes.fromhex` succeeds on the character sequence: ASCII
spaces are skipped between byte pairs, and the remaining characters must form
pairs of hexadecimal digits (either case; no space may fall inside a pair).
CPython ≤ 3.10 skips exactly the space character; 3.11+ also skips other
ASCII whitespace — the model follows the ≤ 3.10 behavior, accepted in every
version. -/
def fromhexAccepts : List Char → Bool
  | [] => true
  | ' ' :: cs => fromhexAccepts cs
  | [_] => false
  | c1 :: c2 :: cs => isHexChar c1 && isHexChar c2 && fromhexAccepts cs

/-- Models `bson.ObjectId.is_valid` for string input.  `ObjectId.__validate`
accepts a string exactly when it has length 24 and `bytes.fromhex` succeeds
on it; there is no check that the decoded result has 12 bytes, so hex digits
of either case, with ASCII spaces permitted between byte pairs, are
accepted. -/
def ObjectId.is_valid (s : String) : Bool :=
  s.length == 24 && fromhexAccepts s.data

/-- Stored `_id` values are the lower-case hex renderings MongoDB generates
(12 bytes).  `ObjectId(query_id)` parses hex case-insensitively, so an `_id`
lookup compares the lower-cased query id against the stored id: for a query
of 24 hex digits this matches iff the parsed bytes match, and a valid query
containing spaces parses to at most 11 bytes, so it matches no stored
12-byte id — which the string comparison reproduces, spaces never occurring
in a stored id. -/
def oidNormalize (s : String) : String := pyLower s

/-! ## Error taxonomy (app/utils/errors.py) and Python exceptions

Exceptions are modelled explicitly: each `APIError` subclass of
app/utils/errors.py is a constructor carrying its detail payload, and
`typeError` models a Python `TypeError` (not an `APIError`; the generic
`Exception` handler of app/main.py maps it to a 500 `SERVER_ERROR`
response). -/

inductive PyExn where
  | typeError (message : String)
  | paramsNotValidError (param : String) (value : String) (issue : String)
      (expectedFormat : String)
  | resourceNotFoundError (resource : String) (identifier : String)
      (searchedBy : String)
  | bodyNotValidError (message : String)
deriving DecidableEq, Repr

/-- The `code` attribute set by each `APIError` subclass constructor
(app/utils/errors.py); a `TypeError` carries none. -/
def PyExn.code : PyExn → Option String
  | .typeError _ => none
  | .paramsNotValidError _ _ _ _ => some "PARAMS_NOT_VALID"
  | .resourceNotFoundError _ _ _ => some "RESOURCE_NOT_FOUND"
  | .bodyNotValidError _ => some "BODY_NOT_VALID"

/-- The `status_code` attribute set by each `APIError` subclass constructor
(app/utils/errors.py); a `TypeError` carries none. -/
def PyExn.status_code : PyExn → Option Nat
  | .typeError _ => none
  | .paramsNotValidError _ _ _ _ => some 400
  | .resourceNotFoundError _ _ _ => some 404
  | .bodyNotValidError _ => some 400

/-- Models the expression `raise ResourceNotFoundError(msg)` with a single
positional argument, as written in app/services/post_service.py (lines 19,
40), app/services/comment_service.py (line 20), app/routers/posts.py (lines
207, 263, 288) and app/routers/comments.py.  `ResourceNotFoundError.__init__`
(app/utils/errors.py line 32) requires two positional parameters
`(resource, identifier)`, so evaluating this call raises
`TypeError: __init__ missing 1 required positional argument: identifier`
before any `ResourceNotFoundError` instance exists. -/
def resourceNotFoundOneArg (msg : String) : PyExn :=
  .typeError ("ResourceNotFoundError.__init__ missing 1 required positional argument: identifier; message was: " ++ msg)

/-! ## Stored documents and the store -/

/-- app/schemas/user.py `Location`. -/
structure Location where
  street : String
  city : String
  state : String
  country : String
  timezone : String
deriving DecidableEq, Repr

/-- A raw MongoDB `users` document, with the fields the services read.
Fields accessed via `.get(...)` in the source are optional here. -/
structure UserDoc where
  _id : String
  title : Option String
  firstName : String
  lastName : String
  email : String
  dateOfBirth : Option DateTime
  registerDate : DateTime
  phone : Option String
  picture : Option String
  location : Option Location
deriving DecidableEq, Repr

/-- A raw MongoDB `posts` document. -/
structure PostDoc where
  _id : String
  text : String
  image : Option String
  likes : Option Nat
  tags : Option (List String)
  link : Option String
  publishDate : DateTime
  owner : String
deriving DecidableEq, Repr

/-- A raw MongoDB `comments` document. -/
structure CommentDoc where
  _id : String
  message : String
  owner : String
  post : String
  publishDate : DateTime
deriving DecidableEq, Repr

/-- The document store: the three collections the services touch. -/
structure Store where
  users : List UserDoc
  posts : List PostDoc
  comments : List CommentDoc
deriving DecidableEq, Repr

/-! ## API projections (app/schemas) -/

/-- app/schemas/user.py `UserPreview`. -/
structure UserPreview where
  id : String
  title : String
  firstName : String
  lastName : String
  picture : String
deriving DecidableEq, Repr

/-- app/schemas/user.py `UserFull`. -/
structure UserFull where
  id : String
  title : String
  firstName : String
  lastName : String
  email : String
  dateOfBirth : Option DateTime
  registerDate : DateTime
  phone : Option String
  picture : String
  location : Option Location
deriving DecidableEq, Repr

/-- app/schemas/post.py `PostPreview` (owner resolved to a `UserPreview`). -/
structure PostPreview where
  id : String
  text : String
  image : String
  likes : Nat
  tags : List String
  publishDate : DateTime
  owner : UserPreview
deriving DecidableEq, Repr

/-- app/schemas/post.py `PostFull`. -/
structure PostFull where
  id : String
  text : String
  image : String
  likes : Nat
  link : Option String
  tags : List String
  publishDate : DateTime
  owner : UserPreview
deriving DecidableEq, Repr

/-- app/schemas/comment.py `Comment`. -/
structure Comment where
  id : String
  message : String
  owner : UserPreview
  post : String
  publishDate : DateTime
deriving DecidableEq, Repr

/-! ## Generic list machinery (MongoDB cursor pipeline) -/

/-- Insert into a sorted list, keeping elements that compare `le`-before `x`
ahead of it. -/
def insertLe (le : α → α → Bool) (x : α) : List α → List α
  | [] => [x]
  | y :: ys => if le x y then x :: y :: ys else y :: insertLe le x ys

/-- Insertion sort; models the store's `.sort(field, direction)` cursor
stage (the tie-break order among equal keys is not contractual). -/
def sortDocs (le : α → α → Bool) : List α → List α
  | [] => []
  | x :: xs => insertLe le x (sortDocs le xs)

/-- Flip a comparator when `sort_order == "desc"` (the services map `desc` to
direction `-1`, anything else to `1`). -/
def withDirection (sort_order : String) (le : α → α → Bool) : α → α → Bool :=
  if sort_order == "desc" then (fun a b => le b a) else le

/-- `leadsList needle hay`: `needle` is an initial segment of `hay`. -/
def leadsList [BEq α] : List α → List α → Bool
  | [], _ => true
  | _ :: _, [] => false
  | x :: xs, y :: ys => x == y && leadsList xs ys

/-- `occursInList needle hay`: `needle` occurs contiguously inside `hay`. -/
def occursInList [BEq α] (needle : List α) : List α → Bool
  | [] => leadsList needle []
  | y :: ys => leadsList needle (y :: ys) || occursInList needle ys

/-- Case-insensitive substring test; models the `{"$regex": s, "$options":
"i"}` filters of the routers for search strings without regex
metacharacters. -/
def containsCI (hay needle : String) : Bool :=
  occursInList ((pyLower needle).toList) ((pyLower hay).toList)

/-! ## UserService (app/services/user_service.py) -/

namespace UserService

/-- `UserService._user_dict_to_preview`: missing `title`/`picture` default to
`""` via `.get`. -/
def _user_dict_to_preview (user_dict : UserDoc) : UserPreview :=
  { id := user_dict._id
    title := user_dict.title.getD ""
    firstName := user_dict.firstName
    lastName := user_dict.lastName
    picture := user_dict.picture.getD "" }

/-- `UserService._user_dict_to_full`. -/
def _user_dict_to_full (user_dict : UserDoc) : UserFull :=
  { id := user_dict._id
    title := user_dict.title.getD ""
    firstName := user_dict.firstName
    lastName := user_dict.lastName
    email := user_dict.email
    dateOfBirth := user_dict.dateOfBirth
    registerDate := user_dict.registerDate
    phone := user_dict.phone
    picture := user_dict.picture.getD ""
    location := user_dict.location }

/-- The filter dict built by app/routers/users.py `get_users`: an exact
`title` match and/or an `$or` of case-insensitive regex matches over
firstName, lastName and email. -/
structure Filters where
  title : Option String := none
  search : Option String := none
deriving DecidableEq, Repr

/-- Whether a stored user document matches the filter dict. -/
def matchesFilters (f : Filters) (u : UserDoc) : Bool :=
  (match f.title with
   | none => true
   | some t => u.title == some t) &&
  (match f.search with
   | none => true
   | some s => containsCI u.firstName s || containsCI u.lastName s ||
               containsCI u.email s)

/-- The sort comparator for the allow-listed user sort fields
(`registerDate` default, `firstName`, `lastName`). -/
def sortLe (sort_by : String) (u v : UserDoc) : Bool :=
  if sort_by == "firstName" then
    u.firstName < v.firstName || u.firstName == v.firstName
  else if sort_by == "lastName" then
    u.lastName < v.lastName || u.lastName == v.lastName
  else
    Nat.ble u.registerDate.key v.registerDate.key

/-- `UserService.get_users`: count the matching documents, then fetch the
page `find(query).sort(sort_by, dir).skip((page-1)*limit).limit(limit)` and
convert each document to a preview. -/
def get_users (db : Store) (page limit : Nat) (sort_by sort_order : String)
    (filters : Option Filters) : List UserPreview × Nat :=
  let query := filters.getD {}
  let matching := db.users.filter (matchesFilters query)
  let total := matching.length
  let sorted := sortDocs (withDirection sort_order (sortLe sort_by)) matching
  let skip := (page - 1) * limit
  let pageDocs := (sorted.drop skip).take limit
  (pageDocs.map _user_dict_to_preview, total)

/-- `find_one({"_id": ObjectId(user_id)})` on the users collection. -/
def find_one (db : Store) (user_id : String) : Option UserDoc :=
  db.users.find? (fun u => u._id == oidNormalize user_id)

/-- `UserService.get_user_by_id`: `None` for an invalid id (before any store
access) or a missing document, otherwise the Full projection. -/
def get_user_by_id (db : Store) (user_id : String) : Option UserFull :=
  if !ObjectId.is_valid user_id then none
  else (find_one db user_id).map _user_dict_to_full

/-- `UserService.get_user_preview_by_id`: as above but producing a preview. -/
def get_user_preview_by_id (db : Store) (user_id : String) : Option UserPreview :=
  if !ObjectId.is_valid user_id then none
  else (find_one db user_id).map _user_dict_to_preview

/-- app/schemas/user.py `UserUpdate`: every mutable field optional (email is
absent by design).  Pydantic drops unrecognized payload fields, so a payload
of only unrecognized or null fields is exactly this record with every field
`none`. -/
structure UserUpdate where
  title : Option String := none
  firstName : Option String := none
  lastName : Option String := none
  dateOfBirth : Option DateTime := none
  phone : Option String := none
  picture : Option String := none
  location : Option Location := none
deriving DecidableEq, Repr

/-- Whether `update_dict = {k: v for k, v in model_dump().items() if v is not
None}` is non-empty. -/
def UserUpdate.hasUpdates (u : UserUpdate) : Bool :=
  u.title.isSome || u.firstName.isSome || u.lastName.isSome ||
  u.dateOfBirth.isSome || u.phone.isSome || u.picture.isSome ||
  u.location.isSome

/-- `{"$set": update_dict}` applied to one stored user document. -/
def applySet (upd : UserUpdate) (d : UserDoc) : UserDoc :=
  { d with
    title := match upd.title with | some v => some v | none => d.title
    firstName := upd.firstName.getD d.firstName
    lastName := upd.lastName.getD d.lastName
    dateOfBirth := match upd.dateOfBirth with | some v => some v | none => d.dateOfBirth
    phone := match upd.phone with | some v => some v | none => d.phone
    picture := match upd.picture with | some v => some v | none => d.picture
    location := match upd.location with | some v => some v | none => d.location }

/-- Replace the first matching element (models `find_one_and_update` touching
a single document). -/
def updateFirst (p : α → Bool) (f : α → α) : List α → List α
  | [] => []
  | x :: xs => if p x then f x :: xs else x :: updateFirst p f xs

/-- `UserService.update_user`: invalid id → `None`; empty update dict → the
current Full projection with no store mutation; otherwise
`find_one_and_update(..., {"$set": update_dict}, return_document=True)`.
Returns the store after the call alongside the result. -/
def update_user (db : Store) (user_id : String) (user_data : UserUpdate) :
    Store × Option UserFull :=
  if !ObjectId.is_valid user_id then (db, none)
  else if !user_data.hasUpdates then (db, get_user_by_id db user_id)
  else
    match find_one db user_id with
    | none => (db, none)
    | some d =>
      let db' : Store :=
        { db with users := updateFirst (fun u => u._id == oidNormalize user_id)
                             (applySet user_data) db.users }
      (db', some (_user_dict_to_full (applySet user_data d)))

/-- `UserService.delete_user`: invalid id → `False`; otherwise
`delete_one({"_id": ObjectId(user_id)})`, reporting whether a document was
removed. -/
def delete_user (db : Store) (user_id : String) : Store × Bool :=
  if !ObjectId.is_valid user_id then (db, false)
  else
    let found := db.users.any (fun u => u._id == oidNormalize user_id)
    ({ db with users := db.users.eraseP (fun u => u._id == oidNormalize user_id) },
     found)

end UserService

/-! ## PostService (app/services/post_service.py) -/

namespace PostService

/-- `PostService._post_dict_to_preview`: resolve the owner preview (raising
on a missing owner — see `resourceNotFoundOneArg` for the faulty
construction), truncate the text to 50 characters, default missing
image/likes/tags. -/
def _post_dict_to_preview (db : Store) (post_dict : PostDoc) :
    Except PyExn PostPreview :=
  match UserService.get_user_preview_by_id db post_dict.owner with
  | none => .error (resourceNotFoundOneArg ("User " ++ post_dict.owner ++ " not found"))
  | some owner =>
    let text := post_dict.text
    let preview_text := if text.length > 50 then text.take 50 else text
    .ok { id := post_dict._id
          text := preview_text
          image := post_dict.image.getD ""
          likes := post_dict.likes.getD 0
          tags := post_dict.tags.getD []
          publishDate := post_dict.publishDate
          owner := owner }

/-- `PostService._post_dict_to_full`: as above, untruncated and with the
`link` field. -/
def _post_dict_to_full (db : Store) (post_dict : PostDoc) :
    Except PyExn PostFull :=
  match UserService.get_user_preview_by_id db post_dict.owner with
  | none => .error (resourceNotFoundOneArg ("User " ++ post_dict.owner ++ " not found"))
  | some owner =>
    .ok { id := post_dict._id
          text := post_dict.text
          image := post_dict.image.getD ""
          likes := post_dict.likes.getD 0
          link := post_dict.link
          tags := post_dict.tags.getD []
          publishDate := post_dict.publishDate
          owner := owner }

/-- The filter dicts built by the posts routers: a case-insensitive `text`
regex (`get_posts` search), an exact `owner` id (`get_posts_by_user`), or a
`tags` membership (`get_posts_by_tag`). -/
structure Filters where
  text : Option String := none
  owner : Option String := none
  tags : Option String := none
deriving DecidableEq, Repr

/-- Whether a stored post document matches the filter dict (`tags: t` on an
array field matches arrays containing `t`). -/
def matchesFilters (f : Filters) (p : PostDoc) : Bool :=
  (match f.text with
   | none => true
   | some s => containsCI p.text s) &&
  (match f.owner with
   | none => true
   | some o => p.owner == o) &&
  (match f.tags with
   | none => true
   | some t => (p.tags.getD []).contains t)

/-- The sort comparator for the allow-listed post sort fields
(`publishDate` default, `likes`). -/
def sortLe (sort_by : String) (u v : PostDoc) : Bool :=
  if sort_by == "likes" then Nat.ble (u.likes.getD 0) (v.likes.getD 0)
  else Nat.ble u.publishDate.key v.publishDate.key

/-- The `async for` resolution loop of `PostService.get_posts`:
`try: posts.append(_post_dict_to_preview(d)) except ResourceNotFoundError:
continue`.  Only a `ResourceNotFoundError` is caught; any other exception
(notably the `TypeError` the faulty one-argument construction raises)
propagates. -/
def resolveList (db : Store) : List PostDoc → Except PyExn (List PostPreview)
  | [] => .ok []
  | p :: rest =>
    match _post_dict_to_preview db p with
    | .ok pv => (resolveList db rest).map (fun l => pv :: l)
    | .error (.resourceNotFoundError _ _ _) => resolveList db rest
    | .error e => .error e

/-- `PostService.get_posts`: an `owner` filter value failing
`ObjectId.is_valid` short-circuits to `([], 0)` before `count_documents` or
`find` run; otherwise count, sort, paginate and resolve each page item. -/
def get_posts (db : Store) (page limit : Nat) (sort_by sort_order : String)
    (filters : Option Filters) : Except PyExn (List PostPreview × Nat) :=
  let query := filters.getD {}
  if query.owner.isSome && !ObjectId.is_valid (query.owner.getD "") then
    .ok ([], 0)
  else
    let matching := db.posts.filter (matchesFilters query)
    let total := matching.length
    let sorted := sortDocs (withDirection sort_order (sortLe sort_by)) matching
    let pageDocs := (sorted.drop ((page - 1) * limit)).take limit
    (resolveList db pageDocs).map (fun posts => (posts, total))

/-- `find_one({"_id": ObjectId(post_id)})` on the posts collection. -/
def find_one (db : Store) (post_id : String) : Option PostDoc :=
  db.posts.find? (fun p => p._id == oidNormalize post_id)

/-- `PostService.get_post_by_id`: invalid id or missing document → `None`
(no error); an existing document is converted to the Full projection,
which raises if the owner does not resolve. -/
def get_post_by_id (db : Store) (post_id : String) :
    Except PyExn (Option PostFull) :=
  if !ObjectId.is_valid post_id then .ok none
  else
    match find_one db post_id with
    | none => .ok none
    | some post_dict => (_post_dict_to_full db post_dict).map some

/-- app/schemas/post.py `PostUpdate` (owner and publishDate immutable by
omission). -/
structure PostUpdate where
  text : Option String := none
  image : Option String := none
  likes : Option Nat := none
  tags : Option (List String) := none
  link : Option String := none
deriving DecidableEq, Repr

/-- Whether the non-None update dict of a `PostUpdate` is non-empty. -/
def PostUpdate.hasUpdates (p : PostUpdate) : Bool :=
  p.text.isSome || p.image.isSome || p.likes.isSome || p.tags.isSome ||
  p.link.isSome

/-- `{"$set": update_dict}` applied to one stored post document. -/
def applySet (upd : PostUpdate) (d : PostDoc) : PostDoc :=
  { d with
    text := upd.text.getD d.text
    image := match upd.image with | some v => some v | none => d.image
    likes := match upd.likes with | some v => some v | none => d.likes
    tags := match upd.tags with | some v => some v | none => d.tags
    link := match upd.link with | some v => some v | none => d.link }

/-- `PostService.update_post`: invalid id → `None`; empty update dict → the
current Full projection with no store mutation; otherwise
`find_one_and_update` followed by `_post_dict_to_full` on the updated
document. -/
def update_post (db : Store) (post_id : String) (post_data : PostUpdate) :
    Store × Except PyExn (Option PostFull) :=
  if !ObjectId.is_valid post_id then (db, .ok none)
  else if !post_data.hasUpdates then (db, get_post_by_id db post_id)
  else
    match find_one db post_id with
    | none => (db, .ok none)
    | some d =>
      let db' : Store :=
        { db with posts := UserService.updateFirst
                             (fun p => p._id == oidNormalize post_id)
                             (applySet post_data) db.posts }
      (db', (_post_dict_to_full db' (applySet post_data d)).map some)

/-- `PostService.delete_post`. -/
def delete_post (db : Store) (post_id : String) : Store × Bool :=
  if !ObjectId.is_valid post_id then (db, false)
  else
    let found := db.posts.any (fun p => p._id == oidNormalize post_id)
    ({ db with posts := db.posts.eraseP (fun p => p._id == oidNormalize post_id) },
     found)

end PostService

/-! ## CommentService (app/services/comment_service.py) -/

namespace CommentService

/-- `CommentService._comment_dict_to_model`: resolves the owner preview,
raising through the same faulty one-argument `ResourceNotFoundError`
construction when the owner is missing. -/
def _comment_dict_to_model (db : Store) (comment_dict : CommentDoc) :
    Except PyExn Comment :=
  match UserService.get_user_preview_by_id db comment_dict.owner with
  | none => .error (resourceNotFoundOneArg ("User " ++ comment_dict.owner ++ " not found"))
  | some owner =>
    .ok { id := comment_dict._id
          message := comment_dict.message
          owner := owner
          post := comment_dict.post
          publishDate := comment_dict.publishDate }

/-- The filter dicts built by the comments routers: exact `post` and/or
`owner` id matches. -/
structure Filters where
  post : Option String := none
  owner : Option String := none
deriving DecidableEq, Repr

/-- Whether a stored comment document matches the filter dict. -/
def matchesFilters (f : Filters) (c : CommentDoc) : Bool :=
  (match f.post with
   | none => true
   | some p => c.post == p) &&
  (match f.owner with
   | none => true
   | some o => c.owner == o)

/-- The comments resolution loop, catching only `ResourceNotFoundError`. -/
def resolveList (db : Store) : List CommentDoc → Except PyExn (List Comment)
  | [] => .ok []
  | c :: rest =>
    match _comment_dict_to_model db c with
    | .ok cm => (resolveList db rest).map (fun l => cm :: l)
    | .error (.resourceNotFoundError _ _ _) => resolveList db rest
    | .error e => .error e

set_option linter.unusedVariables false in
/-- `CommentService.get_comments`: an `owner` or `post` filter value failing
`ObjectId.is_valid` short-circuits to `([], 0)` before any store query (the
owner check comes first in the source); the routers fix `sort_by` to
`"publishDate"`, the only allow-listed comment sort field, so the comparator
keys on `publishDate`. -/
def get_comments (db : Store) (page limit : Nat) (sort_by sort_order : String)
    (filters : Option Filters) : Except PyExn (List Comment × Nat) :=
  let query := filters.getD {}
  if query.owner.isSome && !ObjectId.is_valid (query.owner.getD "") then
    .ok ([], 0)
  else if query.post.isSome && !ObjectId.is_valid (query.post.getD "") then
    .ok ([], 0)
  else
    let matching := db.comments.filter (matchesFilters query)
    let total := matching.length
    let sorted := sortDocs
      (withDirection sort_order (fun u v : CommentDoc =>
        Nat.ble u.publishDate.key v.publishDate.key)) matching
    let pageDocs := (sorted.drop ((page - 1) * limit)).take limit
    (resolveList db pageDocs).map (fun comments => (comments, total))

/-- `CommentService.delete_comment`. -/
def delete_comment (db : Store) (comment_id : String) : Store × Bool :=
  if !ObjectId.is_valid comment_id then (db, false)
  else
    let found := db.comments.any (fun c => c._id == oidNormalize comment_id)
    ({ db with comments := db.comments.eraseP (fun c => c._id == oidNormalize comment_id) },
     found)

end CommentService

/-! ## Users router (app/routers/users.py) -/

/-- app/routers/users.py `validate_user_id`: raise `ParamsNotValidError`
(with the literal issue and expected-format strings of the source) when the
id fails `ObjectId.is_valid`, otherwise return it.  (`ObjectId.is_valid`
never raises on a string, so the source's `except (InvalidId, TypeError)`
clause is unreachable for string input.) -/
def validate_user_id (user_id : String) : Except PyExn String :=
  if !ObjectId.is_valid user_id then
    .error (.paramsNotValidError "user_id" user_id
      "Must be a valid MongoDB ObjectId (24 hex characters)"
      "24-character hexadecimal string")
  else .ok user_id

/-- app/routers/users.py `add_user_hateoas_links`. -/
structure UserLinks where
  self : String
  posts : String
  comments : String
deriving DecidableEq, Repr

def add_user_hateoas_links (user_id base_url : String) : UserLinks :=
  { self := base_url ++ ("/api/v1/users/" ++ user_id)
    posts := base_url ++ ("/api/v1/posts/user/" ++ user_id)
    comments := base_url ++ ("/api/v1/comments/user/" ++ user_id) }

/-- The language extraction `accept_language.split(",")[0].strip()[:2]`
performed by every router before formatting dates. -/
def extractLang (accept_language : String) : String :=
  (pyStrip (pyHeadSegment accept_language)).take 2

/-- The user dict returned by the single-user routes: the Full projection
with `registerDate` (and `dateOfBirth` when present) replaced by its
locale-formatted rendering, plus HATEOAS links. -/
structure RenderedUser where
  id : String
  title : String
  firstName : String
  lastName : String
  email : String
  dateOfBirth : Option String
  registerDate : String
  phone : Option String
  picture : String
  location : Option Location
  _links : UserLinks
deriving DecidableEq, Repr

/-- Shapes a `UserFull` the way the users router does before returning it. -/
def renderUser (user : UserFull) (lang base_url : String) : RenderedUser :=
  { id := user.id
    title := user.title
    firstName := user.firstName
    lastName := user.lastName
    email := user.email
    dateOfBirth := user.dateOfBirth.map (fun d => format_date (some d) lang)
    registerDate := format_date (some user.registerDate) lang
    phone := user.phone
    picture := user.picture
    location := user.location
    _links := add_user_hateoas_links user.id base_url }

namespace UsersRouter

/-- app/routers/users.py `get_user`: validate the id, fetch, raise a
(correctly constructed) `ResourceNotFoundError` when absent, then format
dates and attach links. -/
def get_user (db : Store) (user_id accept_language base_url : String) :
    Except PyExn RenderedUser :=
  match validate_user_id user_id with
  | .error e => .error e
  | .ok _ =>
    match UserService.get_user_by_id db user_id with
    | none => .error (.resourceNotFoundError "User" user_id "id")
    | some user => .ok (renderUser user (extractLang accept_language) base_url)

/-- app/routers/users.py `update_user`: validate the id, delegate to the
service, raise `ResourceNotFoundError` when it returns `None`, then render.
Returns the store after the call alongside the response. -/
def update_user (db : Store) (user_id : String)
    (user_data : UserService.UserUpdate) (accept_language base_url : String) :
    Store × Except PyExn RenderedUser :=
  match validate_user_id user_id with
  | .error e => (db, .error e)
  | .ok _ =>
    let (db', result) := UserService.update_user db user_id user_data
    match result with
    | none => (db', .error (.resourceNotFoundError "User" user_id "id"))
    | some user => (db', .ok (renderUser user (extractLang accept_language) base_url))

/-- app/schemas/common.py `DeleteResponse` (default message). -/
structure DeleteResponse where
  id : String
  message : String := "Resource deleted successfully"
deriving DecidableEq, Repr

/-- app/routers/users.py `delete_user`. -/
def delete_user (db : Store) (user_id : String) :
    Store × Except PyExn DeleteResponse :=
  match validate_user_id user_id with
  | .error e => (db, .error e)
  | .ok _ =>
    let (db', success) := UserService.delete_user db user_id
    if !success then (db', .error (.resourceNotFoundError "User" user_id "id"))
    else (db', .ok { id := user_id })

end UsersRouter

/-! ## Posts router (app/routers/posts.py) -/

/-- app/routers/posts.py `add_post_hateoas_links`. -/
structure PostLinks where
  self : String
  owner : String
  comments : String
deriving DecidableEq, Repr

def add_post_hateoas_links (post_id owner_id base_url : String) : PostLinks :=
  { self := base_url ++ ("/api/v1/posts/" ++ post_id)
    owner := base_url ++ ("/api/v1/users/" ++ owner_id)
    comments := base_url ++ ("/api/v1/comments?post=" ++ post_id) }

/-- The post dict returned by the single-post routes: the Full projection
with `publishDate` replaced by its locale-formatted rendering, plus links. -/
structure RenderedPost where
  id : String
  text : String
  image : String
  likes : Nat
  link : Option String
  tags : List String
  publishDate : String
  owner : UserPreview
  _links : PostLinks
deriving DecidableEq, Repr

def renderPost (post : PostFull) (lang base_url : String) : RenderedPost :=
  { id := post.id
    text := post.text
    image := post.image
    likes := post.likes
    link := post.link
    tags := post.tags
    publishDate := format_date (some post.publishDate) lang
    owner := post.owner
    _links := add_post_hateoas_links post.id post.owner.id base_url }

namespace PostsRouter

/-- The pagination-link construction performed by app/routers/posts.py
`get_posts` (lines 90-99): keyword parameters `sort_by`, `sort_order`,
`search` in declaration order; the str-mixin `SortOrder` member renders as
its value. -/
def get_posts_pagination (base_url : String) (page limit total : Nat)
    (sort_by : String) (sort_order : SortOrder) (search : Option String) :
    PaginationLinks :=
  add_pagination_links base_url "/api/v1/posts" page limit total
    [("sort_by", some sort_by), ("sort_order", some sort_order.value),
     ("search", search)]

/-- app/routers/posts.py `get_post` (lines 197-223): no id validation; a
`None` from the service (which is what an invalid or unknown id produces)
flows into the faulty one-argument `ResourceNotFoundError` construction. -/
def get_post (db : Store) (post_id accept_language base_url : String) :
    Except PyExn RenderedPost :=
  match PostService.get_post_by_id db post_id with
  | .error e => .error e
  | .ok none => .error (resourceNotFoundOneArg ("Post with id " ++ post_id ++ " not found"))
  | .ok (some post) =>
    .ok (renderPost post (extractLang accept_language) base_url)

/-- app/routers/posts.py `delete_post`. -/
def delete_post (db : Store) (post_id : String) :
    Store × Except PyExn UsersRouter.DeleteResponse :=
  let (db', success) := PostService.delete_post db post_id
  if !success then
    (db', .error (resourceNotFoundOneArg ("Post with id " ++ post_id ++ " not found")))
  else (db', .ok { id := post_id, message := "Post deleted successfully" })

end PostsRouter

/-! ## Comments router (app/routers/comments.py) -/

namespace CommentsRouter

/-- app/routers/comments.py `delete_comment`: same faulty not-found
construction as the posts router. -/
def delete_comment (db : Store) (comment_id : String) :
    Store × Except PyExn UsersRouter.DeleteResponse :=
  let (db', success) := CommentService.delete_comment db comment_id
  if !success then
    (db', .error (resourceNotFoundOneArg ("Comment with id " ++ comment_id ++ " not found")))
  else (db', .ok { id := comment_id, message := "Comment deleted successfully" })

end CommentsRouter

/-! ## Concrete example data

A small store used by the concrete evaluations below: three posts whose
owners are, respectively, an existing user, a deleted (absent) user, and
another existing user. -/

def aliceDoc : UserDoc :=
  { _id := "aaaaaaaaaaaaaaaaaaaaaa01"
    title := some "mr"
    firstName := "Alice"
    lastName := "Smith"
    email := "alice@example.com"
    dateOfBirth := none
    registerDate := ⟨2023, 1, 1, 9, 0⟩
    phone := none
    picture := some "pic1"
    location := none }

def carolDoc : UserDoc :=
  { _id := "aaaaaaaaaaaaaaaaaaaaaa03"
    title := some "miss"
    firstName := "Carol"
    lastName := "Jones"
    email := "carol@example.com"
    dateOfBirth := none
    registerDate := ⟨2023, 2, 1, 9, 0⟩
    phone := none
    picture := some "pic3"
    location := none }

/-- The id of a user that was deleted: no document carries it. -/
def deletedOwnerId : String := "aaaaaaaaaaaaaaaaaaaaaa02"

def post1 : PostDoc :=
  { _id := "bbbbbbbbbbbbbbbbbbbbbb01"
    text := "first post"
    image := some "img1"
    likes := some 3
    tags := some ["cats"]
    link := none
    publishDate := ⟨2024, 1, 1, 10, 0⟩
    owner := "aaaaaaaaaaaaaaaaaaaaaa01" }

/-- The orphaned post: its owner reference names the deleted user. -/
def post2 : PostDoc :=
  { _id := "bbbbbbbbbbbbbbbbbbbbbb02"
    text := "orphaned post"
    image := some "img2"
    likes := some 1
    tags := some []
    link := none
    publishDate := ⟨2024, 1, 2, 10, 0⟩
    owner := deletedOwnerId }

def post3 : PostDoc :=
  { _id := "bbbbbbbbbbbbbbbbbbbbbb03"
    text := "third post"
    image := some "img3"
    likes := some 7
    tags := some ["dogs"]
    link := none
    publishDate := ⟨2024, 1, 3, 10, 0⟩
    owner := "aaaaaaaaaaaaaaaaaaaaaa03" }

/-- Two stored users, three stored posts (one orphaned), no comments. -/
def exampleStore : Store :=
  { users := [aliceDoc, carolDoc]
    posts := [post1, post2, post3]
    comments := [] }

/-- The number of items carried by a listing result: the data-list length on
success, `0` when the listing raised. -/
def exceptDataLen : Except PyExn (List α × Nat) → Nat
  | .ok r => r.1.length
  | .error _ => 0

/-! ## General lemmas about the list machinery -/

theorem length_insertLe (le : α → α → Bool) (x : α) (l : List α) :
    (insertLe le x l).length = l.length + 1 := by
  induction l with
  | nil => rfl
  | cons y ys ih =>
    simp only [insertLe]
    split <;> simp [ih]

theorem length_sortDocs (le : α → α → Bool) (l : List α) :
    (sortDocs le l).length = l.length := by
  induction l with
  | nil => rfl
  | cons x xs ih => simp [sortDocs, length_insertLe, ih]

theorem length_resolvePostList (db : Store) (l : List PostDoc)
    (r : List PostPreview) (h : PostService.resolveList db l = .ok r) :
    r.length ≤ l.length := by
  induction l generalizing r with
  | nil =>
    simp only [PostService.resolveList] at h
    cases h
    simp
  | cons p rest ih =>
    simp only [PostService.resolveList] at h
    cases hp : PostService._post_dict_to_preview db p with
    | ok pv =>
      rw [hp] at h
      cases hrest : PostService.resolveList db rest with
      | ok l' =>
        rw [hrest] at h
        cases h
        simpa using Nat.succ_le_succ (ih l' hrest)
      | error e =>
        rw [hrest] at h
        cases h
    | error e =>
      rw [hp] at h
      cases e with
      | resourceNotFoundError a b c =>
        exact Nat.le_succ_of_le (ih r h)
      | typeError m => cases h
      | paramsNotValidError a b c d => cases h
      | bodyNotValidError m => cases h

theorem length_resolveCommentList (db : Store) (l : List CommentDoc)
    (r : List Comment) (h : CommentService.resolveList db l = .ok r) :
    r.length ≤ l.length := by
  induction l generalizing r with
  | nil =>
    simp only [CommentService.resolveList] at h
    cases h
    simp
  | cons c rest ih =>
    simp only [CommentService.resolveList] at h
    cases hc : CommentService._comment_dict_to_model db c with
    | ok cm =>
      rw [hc] at h
      cases hrest : CommentService.resolveList db rest with
      | ok l' =>
        rw [hrest] at h
        cases h
        simpa using Nat.succ_le_succ (ih l' hrest)
      | error e =>
        rw [hrest] at h
        cases h
    | error e =>
      rw [hc] at h
      cases e with
      | resourceNotFoundError a b c =>
        exact Nat.le_succ_of_le (ih r h)
      | typeError m => cases h
      | paramsNotValidError a b c d => cases h
      | bodyNotValidError m => cases h

/-! ## Claim theorems -/

/-- C5: the locale formatter renders a timestamp as `MM/dd/yyyy at h:mm
AM/PM` for tag `en` and `dd/MM/yyyy à HH:mm` (24-hour) for `fr`; a tag whose
lower-cased two-character prefix is neither `en` nor `fr` falls back to the
`en` output; a null timestamp renders as `""`.  In particular
`2025-11-23T15:30:00` renders as `11/23/2025 at 3:30 PM` (`en`),
`23/11/2025 à 15:30` (`fr`), and the `en` output for `xx`. -/
theorem C5_locale_formatting (d : DateTime) (lang : String) :
    format_date none lang = "" ∧
    ((pyLower lang).take 2 = "en" ∨ (pyLower lang).take 2 = "fr" ∨
      format_date (some d) lang = format_date (some d) "en") ∧
    format_date (some ⟨2025, 11, 23, 15, 30⟩) "en" = "11/23/2025 at 3:30 PM" ∧
    format_date (some ⟨2025, 11, 23, 15, 30⟩) "fr" = "23/11/2025 à 15:30" ∧
    format_date (some ⟨2025, 11, 23, 15, 30⟩) "xx" = "11/23/2025 at 3:30 PM" := by
  refine ⟨rfl, ?_, rfl, rfl, rfl⟩
  by_cases h1 : (pyLower lang).take 2 = "en"
  · exact Or.inl h1
  by_cases h2 : (pyLower lang).take 2 = "fr"
  · exact Or.inr (Or.inl h2)
  refine Or.inr (Or.inr ?_)
  have hr : format_date (some d) "en" = babelFormatEnUS d := rfl
  rw [hr]
  simp [format_date, I18n.format_date, h1, h2]

/-- C6: the posts-listing pagination links echo the non-null filter/sort
parameters verbatim in declaration order: with `sort_by=likes`,
`sort_order=asc`, `search=cats` on page 2 with limit 10, `self` carries all
three parameters byte-for-byte and `prev` points to page 1 with the same
parameters. -/
theorem C6_link_query_preservation (base_url : String) (total : Nat) :
    (PostsRouter.get_posts_pagination base_url 2 10 total "likes"
        SortOrder.asc (some "cats")).self
      = base_url ++ "/api/v1/posts?page=2&limit=10&sort_by=likes&sort_order=asc&search=cats" ∧
    (PostsRouter.get_posts_pagination base_url 2 10 total "likes"
        SortOrder.asc (some "cats")).prev
      = some (base_url ++ "/api/v1/posts?page=1&limit=10&sort_by=likes&sort_order=asc&search=cats") := by
  constructor
  · rfl
  · rfl

/-- C1: for `total ≥ 0` and `limit ≥ 1`, the pagination-link map computes
`last_page = ceil(total/limit)` — characterized as the least page count
covering `total`, which is `0` when `total = 0`; `prev` is present iff
`page > 1`; `next` is present iff `page < last_page`; and for `total = 0`
the `last` link is still emitted, pointing to page 0. -/
theorem C1_pagination_algebra (base_url endpoint : String)
    (page limit total : Nat) (params : List (String × Option String))
    (hlimit : 1 ≤ limit) :
    ((add_pagination_links base_url endpoint page limit total params).prev.isSome
        ↔ 1 < page) ∧
    ((add_pagination_links base_url endpoint page limit total params).next.isSome
        ↔ page < total_pages total limit) ∧
    total ≤ total_pages total limit * limit ∧
    ((total_pages total limit - 1) * limit < total ∨ total = 0) ∧
    (total = 0 → total_pages total limit = 0 ∧
      (add_pagination_links base_url endpoint page limit total params).last
        = page_href base_url endpoint 0 limit params) := by
  have h0 : 0 < limit := hlimit
  have hdm := Nat.div_add_mod (total + limit - 1) limit
  have hmlt : (total + limit - 1) % limit < limit := Nat.mod_lt _ h0
  refine ⟨?_, ?_, ?_, ?_, ?_⟩
  · simp only [add_pagination_links]
    split <;> simp_all
  · simp only [add_pagination_links]
    split <;> simp_all
  · rw [total_pages, Nat.mul_comm]
    generalize hA : limit * ((total + limit - 1) / limit) = A at hdm
    omega
  · rcases Nat.eq_zero_or_pos total with h | h
    · exact Or.inr h
    refine Or.inl ?_
    have hq1 : 1 ≤ (total + limit - 1) / limit := by
      rw [Nat.le_div_iff_mul_le h0]
      omega
    rw [total_pages, Nat.sub_mul, Nat.one_mul, Nat.mul_comm]
    have hA2 : limit * 1 ≤ limit * ((total + limit - 1) / limit) :=
      Nat.mul_le_mul_left limit hq1
    rw [Nat.mul_one] at hA2
    generalize hA : limit * ((total + limit - 1) / limit) = A at hdm hA2
    omega
  · intro h
    subst h
    have hz : total_pages 0 limit = 0 := by
      rw [total_pages]
      exact Nat.div_eq_of_lt (by omega)
    exact ⟨hz, by rw [add_pagination_links, hz]⟩

/-- Witness for C1 at `page = 2`, `limit = 10`, `total = 25`. -/
theorem C1_pagination_algebra_witness :
    ((add_pagination_links "http://t" "/api/v1/users" 2 10 25 []).prev.isSome
        ↔ 1 < 2) ∧
    ((add_pagination_links "http://t" "/api/v1/users" 2 10 25 []).next.isSome
        ↔ 2 < total_pages 25 10) ∧
    25 ≤ total_pages 25 10 * 10 ∧
    ((total_pages 25 10 - 1) * 10 < 25 ∨ 25 = 0) ∧
    (25 = 0 → total_pages 25 10 = 0 ∧
      (add_pagination_links "http://t" "/api/v1/users" 2 10 25 []).last
        = page_href "http://t" "/api/v1/users" 0 10 []) :=
  C1_pagination_algebra "http://t" "/api/v1/users" 2 10 25 [] (by decide)

/-- C2: a posts (or comments) listing whose filter carries an owner (or
post) reference value that is not a syntactically valid entity id returns
`([], 0)` without raising; the result is the same for every store, so no
store query is issued. -/
theorem C2_filter_short_circuit (db : Store) (page limit : Nat)
    (sort_by sort_order : String) (pf : PostService.Filters)
    (cf : CommentService.Filters) (ref : String)
    (hbad : ObjectId.is_valid ref = false)
    (hpf : pf.owner = some ref)
    (hcf : cf.owner = some ref ∨ cf.post = some ref) :
    PostService.get_posts db page limit sort_by sort_order (some pf)
      = .ok ([], 0) ∧
    CommentService.get_comments db page limit sort_by sort_order (some cf)
      = .ok ([], 0) := by
  constructor
  · simp [PostService.get_posts, hpf, hbad]
  · rcases hcf with hcf | hcf
    · simp [CommentService.get_comments, hcf, hbad]
    · cases ho : cf.owner with
      | none => simp [CommentService.get_comments, ho, hcf, hbad]
      | some o =>
        by_cases hov : ObjectId.is_valid o
        · simp [CommentService.get_comments, ho, hov, hcf, hbad]
        · simp [CommentService.get_comments, ho, Bool.eq_false_iff.mpr hov]

/-- Witness for C2 with the literal malformed reference of the spec's
scenario. -/
theorem C2_filter_short_circuit_witness :
    PostService.get_posts exampleStore 1 20 "publishDate" "desc"
        (some { owner := some "not-a-valid-id" })
      = .ok ([], 0) ∧
    CommentService.get_comments exampleStore 1 20 "publishDate" "desc"
        (some { owner := some "not-a-valid-id" })
      = .ok ([], 0) :=
  C2_filter_short_circuit exampleStore 1 20 "publishDate" "desc"
    { owner := some "not-a-valid-id" } { owner := some "not-a-valid-id" }
    "not-a-valid-id" (by decide) rfl (Or.inl rfl)

/-- C3: evaluation of the code at the spec's list-resilience scenario.  With
3 stored posts of which one references a deleted owner, `get_posts` does not
return 2 resolved items with `total = 3`: resolving the orphaned post calls
`ResourceNotFoundError` with a single positional argument, which raises
`TypeError`, and the `except ResourceNotFoundError` clause does not catch a
`TypeError`, so the whole listing raises.  The raised value is not a
`RESOURCE_NOT_FOUND`-class error (it carries no code), so nothing is
skipped and an error is surfaced. -/
theorem C3_list_orphan_evaluation :
    PostService.get_posts exampleStore 1 20 "publishDate" "desc" none
      = .error (resourceNotFoundOneArg ("User " ++ deletedOwnerId ++ " not found")) ∧
    (resourceNotFoundOneArg ("User " ++ deletedOwnerId ++ " not found")).code
      = none := by
  exact ⟨rfl, rfl⟩

/-- C4: evaluation of the code at the single-item strictness scenario.
Fetching the orphaned post by id does surface an error rather than silently
returning nothing — but the error is the `TypeError` raised by the faulty
one-argument `ResourceNotFoundError` construction, not a
`RESOURCE_NOT_FOUND`-class owner-resolution error: it carries neither the
`RESOURCE_NOT_FOUND` code nor a 404 status (the generic handler maps it to
a 500 `SERVER_ERROR`). -/
theorem C4_single_item_orphan_evaluation :
    PostService.get_post_by_id exampleStore "bbbbbbbbbbbbbbbbbbbbbb02"
      = .error (resourceNotFoundOneArg ("User " ++ deletedOwnerId ++ " not found")) ∧
    (resourceNotFoundOneArg ("User " ++ deletedOwnerId ++ " not found")).code
      ≠ some "RESOURCE_NOT_FOUND" ∧
    (resourceNotFoundOneArg ("User " ++ deletedOwnerId ++ " not found")).status_code
      ≠ some 404 := by
  refine ⟨rfl, ?_, ?_⟩ <;> simp [resourceNotFoundOneArg, PyExn.code, PyExn.status_code]

/-- C8 counterexample: a single-post read with the malformed path id `xyz`
does not produce a `PARAMS_NOT_VALID` / 400 response.  The posts router
performs no id-format validation; the service maps the invalid id to `None`
and the router's not-found branch raises the one-argument
`ResourceNotFoundError` `TypeError` (handled as a 500 `SERVER_ERROR`). -/
theorem C8_counterexample :
    PostsRouter.get_post exampleStore "xyz" "en" "http://testserver"
      = .error (resourceNotFoundOneArg "Post with id xyz not found") ∧
    (resourceNotFoundOneArg "Post with id xyz not found").code
      ≠ some "PARAMS_NOT_VALID" ∧
    (resourceNotFoundOneArg "Post with id xyz not found").status_code
      ≠ some 400 := by
  refine ⟨rfl, ?_, ?_⟩ <;> simp [resourceNotFoundOneArg, PyExn.code, PyExn.status_code]

/-- C8 amended: for user single-item requests (read, update, delete) a
malformed path id yields a `PARAMS_NOT_VALID` error with status 400 whose
details carry the failing parameter with its value, issue and expected
format, and the store is untouched; post and comment single-item requests
perform no id-format validation and instead take the not-found branch,
whose one-argument `ResourceNotFoundError` construction raises
`TypeError`. -/
theorem C8_amended_param_validation (db : Store)
    (s accept_language base_url : String) (u : UserService.UserUpdate)
    (hbad : ObjectId.is_valid s = false) :
    UsersRouter.get_user db s accept_language base_url
      = .error (.paramsNotValidError "user_id" s
          "Must be a valid MongoDB ObjectId (24 hex characters)"
          "24-character hexadecimal string") ∧
    UsersRouter.update_user db s u accept_language base_url
      = (db, .error (.paramsNotValidError "user_id" s
          "Must be a valid MongoDB ObjectId (24 hex characters)"
          "24-character hexadecimal string")) ∧
    UsersRouter.delete_user db s
      = (db, .error (.paramsNotValidError "user_id" s
          "Must be a valid MongoDB ObjectId (24 hex characters)"
          "24-character hexadecimal string")) ∧
    (PyExn.paramsNotValidError "user_id" s
        "Must be a valid MongoDB ObjectId (24 hex characters)"
        "24-character hexadecimal string").code = some "PARAMS_NOT_VALID" ∧
    (PyExn.paramsNotValidError "user_id" s
        "Must be a valid MongoDB ObjectId (24 hex characters)"
        "24-character hexadecimal string").status_code = some 400 ∧
    PostsRouter.get_post db s accept_language base_url
      = .error (resourceNotFoundOneArg ("Post with id " ++ s ++ " not found")) ∧
    PostsRouter.delete_post db s
      = (db, .error (resourceNotFoundOneArg ("Post with id " ++ s ++ " not found"))) ∧
    CommentsRouter.delete_comment db s
      = (db, .error (resourceNotFoundOneArg ("Comment with id " ++ s ++ " not found"))) := by
  refine ⟨?_, ?_, ?_, rfl, rfl, ?_, ?_, ?_⟩
  · simp [UsersRouter.get_user, validate_user_id, hbad]
  · simp [UsersRouter.update_user, validate_user_id, hbad]
  · simp [UsersRouter.delete_user, validate_user_id, hbad]
  · simp [PostsRouter.get_post, PostService.get_post_by_id, hbad]
  · simp [PostsRouter.delete_post, PostService.delete_post, hbad]
  · simp [CommentsRouter.delete_comment, CommentService.delete_comment, hbad]

/-- Witness for C8's amended statement at the malformed id `xyz`. -/
theorem C8_amended_param_validation_witness :
    UsersRouter.get_user exampleStore "xyz" "en" "http://testserver"
      = .error (.paramsNotValidError "user_id" "xyz"
          "Must be a valid MongoDB ObjectId (24 hex characters)"
          "24-character hexadecimal string") ∧
    UsersRouter.update_user exampleStore "xyz" {} "en" "http://testserver"
      = (exampleStore, .error (.paramsNotValidError "user_id" "xyz"
          "Must be a valid MongoDB ObjectId (24 hex characters)"
          "24-character hexadecimal string")) ∧
    UsersRouter.delete_user exampleStore "xyz"
      = (exampleStore, .error (.paramsNotValidError "user_id" "xyz"
          "Must be a valid MongoDB ObjectId (24 hex characters)"
          "24-character hexadecimal string")) ∧
    (PyExn.paramsNotValidError "user_id" "xyz"
        "Must be a valid MongoDB ObjectId (24 hex characters)"
        "24-character hexadecimal string").code = some "PARAMS_NOT_VALID" ∧
    (PyExn.paramsNotValidError "user_id" "xyz"
        "Must be a valid MongoDB ObjectId (24 hex characters)"
        "24-character hexadecimal string").status_code = some 400 ∧
    PostsRouter.get_post exampleStore "xyz" "en" "http://testserver"
      = .error (resourceNotFoundOneArg ("Post with id " ++ "xyz" ++ " not found")) ∧
    PostsRouter.delete_post exampleStore "xyz"
      = (exampleStore, .error (resourceNotFoundOneArg ("Post with id " ++ "xyz" ++ " not found"))) ∧
    CommentsRouter.delete_comment exampleStore "xyz"
      = (exampleStore, .error (resourceNotFoundOneArg ("Comment with id " ++ "xyz" ++ " not found"))) :=
  C8_amended_param_validation exampleStore "xyz" "en" "http://testserver" {} (by decide)

/-- C9: an update whose payload carries only unrecognized or null fields
(pydantic drops unrecognized fields, so the update dict is empty) is a
no-op: the store is returned unchanged and the result is the entity's
current Full projection, for users and for posts alike. -/
theorem C9_update_noop (db : Store) (user_id post_id : String)
    (uu : UserService.UserUpdate) (pu : PostService.PostUpdate)
    (hu : uu.hasUpdates = false) (hp : pu.hasUpdates = false) :
    UserService.update_user db user_id uu
      = (db, UserService.get_user_by_id db user_id) ∧
    PostService.update_post db post_id pu
      = (db, PostService.get_post_by_id db post_id) := by
  constructor
  · rw [UserService.update_user]
    by_cases hv : ObjectId.is_valid user_id = true
    · simp [hv, hu]
    · simp [Bool.eq_false_iff.mpr hv, UserService.get_user_by_id]
  · rw [PostService.update_post]
    by_cases hv : ObjectId.is_valid post_id = true
    · simp [hv, hp]
    · simp [Bool.eq_false_iff.mpr hv, PostService.get_post_by_id]

/-- Witness for C9: the all-null update payloads applied to the example
store. -/
theorem C9_update_noop_witness :
    UserService.update_user exampleStore "aaaaaaaaaaaaaaaaaaaaaa01" {}
      = (exampleStore,
         UserService.get_user_by_id exampleStore "aaaaaaaaaaaaaaaaaaaaaa01") ∧
    PostService.update_post exampleStore "bbbbbbbbbbbbbbbbbbbbbb01" {}
      = (exampleStore,
         PostService.get_post_by_id exampleStore "bbbbbbbbbbbbbbbbbbbbbb01") :=
  C9_update_noop exampleStore "aaaaaaaaaaaaaaaaaaaaaa01" "bbbbbbbbbbbbbbbbbbbbbb01"
    {} {} rfl rfl

/-- C10: every listing returns at most `limit` items (`0` when the listing
raises); user listings, which perform no per-item owner resolution, return
exactly `min limit (total - (page - 1) * limit)` items (natural
subtraction, i.e. `min(limit, max(0, total - (page-1)*limit))`). -/
theorem C10_page_size (db : Store) (page limit : Nat)
    (usb uso psb pso cso : String) (uf : Option UserService.Filters)
    (pf : Option PostService.Filters) (cf : Option CommentService.Filters) :
    (UserService.get_users db page limit usb uso uf).1.length
      = min limit
          ((UserService.get_users db page limit usb uso uf).2
            - (page - 1) * limit) ∧
    exceptDataLen (PostService.get_posts db page limit psb pso pf) ≤ limit ∧
    exceptDataLen (CommentService.get_comments db page limit psb cso cf)
      ≤ limit := by
  refine ⟨?_, ?_, ?_⟩
  · simp [UserService.get_users, length_sortDocs]
  · rw [PostService.get_posts]
    by_cases hsc : ((pf.getD {}).owner.isSome
        && !ObjectId.is_valid ((pf.getD {}).owner.getD "")) = true
    · simp [hsc, exceptDataLen]
    · simp only [Bool.not_eq_true] at hsc
      rw [if_neg (by simp [hsc])]
      cases hres : PostService.resolveList db
          (((sortDocs (withDirection pso (PostService.sortLe psb))
              (db.posts.filter (PostService.matchesFilters (pf.getD {})))).drop
            ((page - 1) * limit)).take limit) with
      | ok r =>
        have hlen := length_resolvePostList db _ r hres
        simp only [hres, Except.map, exceptDataLen]
        calc r.length ≤ _ := hlen
          _ ≤ limit := by simp [List.length_take]
      | error e =>
        simp [hres, Except.map, exceptDataLen]
  · rw [CommentService.get_comments]
    by_cases hsc1 : ((cf.getD {}).owner.isSome
        && !ObjectId.is_valid ((cf.getD {}).owner.getD "")) = true
    · simp [hsc1, exceptDataLen]
    · simp only [Bool.not_eq_true] at hsc1
      rw [if_neg (by simp [hsc1])]
      by_cases hsc2 : ((cf.getD {}).post.isSome
          && !ObjectId.is_valid ((cf.getD {}).post.getD "")) = true
      · simp [hsc2, exceptDataLen]
      · simp only [Bool.not_eq_true] at hsc2
        rw [if_neg (by simp [hsc2])]
        cases hres : CommentService.resolveList db
            (((sortDocs (withDirection cso (fun u v : CommentDoc =>
                Nat.ble u.publishDate.key v.publishDate.key))
                (db.comments.filter (CommentService.matchesFilters (cf.getD {})))).drop
              ((page - 1) * limit)).take limit) with
        | ok r =>
          have hlen := length_resolveCommentList db _ r hres
          simp only [hres, Except.map, exceptDataLen]
          calc r.length ≤ _ := hlen
            _ ≤ limit := by simp [List.length_take]
        | error e =>
          simp [hres, Except.map, exceptDataLen]

end Spec2Proof
